import Mathlib

/-!
Verification of the `proctmux` session/window/pane lifecycle controller
(`src/tmux_context.rs`) against its specification.

The multiplexer driver (`crate::tmux`, an external collaborator per the
spec) is modelled as an abstract responder `Driver`: a function from a
structured request (`DriverCall`, mirroring the driver interface of §6 of
the spec) to either an I/O error or a raw `Output`.  Every context
operation is embedded as a pure function that also returns the ordered
list of driver calls it issued, so that ordering and early-abort claims
are statable.  Process aborts (`panic!` in the Rust source) are embedded
as a distinguished `PResult.panic` outcome.

Machine integers (`usize`) are modelled as `Nat`; overflow is made
explicit in `parseUsize` by the `2 ^ 64` bound that Rust's checked
string-to-`usize` conversion enforces.
-/

/-- An I/O-level error from a driver invocation (Rust `std::io::Error`),
reduced to its message. -/
structure IOErr where
  msg : String
deriving DecidableEq

/-- Raw output of a driver invocation (Rust `std::process::Output`); only
the `stdout` byte vector is ever inspected by the embedded code, so the
other fields are omitted.  Bytes are naturals in `[0, 256)`. -/
structure Output where
  stdout : List Nat
deriving DecidableEq

/-- Whether a byte is a UTF-8 continuation byte (`10xxxxxx`). -/
def contByte (b : Nat) : Bool :=
  decide (0x80 ≤ b ∧ b < 0xC0)

/-- Strict UTF-8 decoding of a byte list into characters, mirroring Rust's
`String::from_utf8`: rejects truncated sequences, stray continuation
bytes, overlong encodings, surrogate code points and values above
`0x10FFFF`; `none` models the `Err` branch of `from_utf8`. -/
def utf8DecodeChars : List Nat → Option (List Char)
  | [] => some []
  | b :: bs =>
    if b < 0x80 then
      match utf8DecodeChars bs with
      | some cs => some (Char.ofNat b :: cs)
      | none => none
    else if b < 0xC2 then
      none
    else if b < 0xE0 then
      match bs with
      | b1 :: bs2 =>
        if contByte b1 then
          match utf8DecodeChars bs2 with
          | some cs => some (Char.ofNat ((b - 0xC0) * 0x40 + (b1 - 0x80)) :: cs)
          | none => none
        else none
      | [] => none
    else if b < 0xF0 then
      match bs with
      | b1 :: b2 :: bs3 =>
        if contByte b1 && contByte b2 &&
            decide (b = 0xE0 → 0xA0 ≤ b1) && decide (b = 0xED → b1 < 0xA0) then
          match utf8DecodeChars bs3 with
          | some cs =>
            some (Char.ofNat ((b - 0xE0) * 0x1000 + (b1 - 0x80) * 0x40 + (b2 - 0x80)) :: cs)
          | none => none
        else none
      | _ => none
    else if b < 0xF5 then
      match bs with
      | b1 :: b2 :: b3 :: bs4 =>
        if contByte b1 && contByte b2 && contByte b3 &&
            decide (b = 0xF0 → 0x90 ≤ b1) && decide (b = 0xF4 → b1 < 0x90) then
          match utf8DecodeChars bs4 with
          | some cs =>
            some (Char.ofNat ((b - 0xF0) * 0x40000 + (b1 - 0x80) * 0x1000 +
              (b2 - 0x80) * 0x40 + (b3 - 0x80)) :: cs)
          | none => none
        else none
      | _ => none
    else none

/-- Rust `String::from_utf8` on a raw stdout byte vector. -/
def fromUtf8 (bs : List Nat) : Option String :=
  match utf8DecodeChars bs with
  | some cs => some (String.mk cs)
  | none => none

/-- Rust `val.replace("\n", "")`: removes every newline character (the
pattern is a single character, so replacement by the empty string is
exactly a filter). -/
def replaceNewline (s : String) : String :=
  String.mk (s.data.filter (fun c => c != '\n'))

/-- Decimal value of an ASCII digit character, `none` otherwise. -/
def digitVal (c : Char) : Option Nat :=
  if 48 ≤ c.toNat ∧ c.toNat ≤ 57 then some (c.toNat - 48) else none

/-- Accumulating decimal parse with the 64-bit overflow check that Rust's
checked conversion performs at each step. -/
def parseDigits : List Char → Nat → Option Nat
  | [], acc => some acc
  | c :: cs, acc =>
    match digitVal c with
    | some d =>
      if acc * 10 + d < 2 ^ 64 then parseDigits cs (acc * 10 + d) else none
    | none => none

/-- Rust `str::parse::<usize>()`: an optional leading `+` followed by at
least one ASCII digit, rejecting anything else and rejecting overflow
past `2 ^ 64 - 1` (64-bit `usize`). -/
def parseUsize (s : String) : Option Nat :=
  match s.data with
  | [] => none
  | c :: cs =>
    if c = '+' then
      match cs with
      | [] => none
      | _ => parseDigits cs 0
    else parseDigits (c :: cs) 0

/-- A structured request to the multiplexer driver, one constructor per
driver entry point used by `TmuxContext` (spec §6). -/
inductive DriverCall where
  | currentSession : DriverCall
  | currentWindow : DriverCall
  | currentPane : DriverCall
  | startDetachedSession : String → DriverCall
  | killSession : String → DriverCall
  | setRemainOnExit : String → Nat → Bool → DriverCall
  | breakPane : String → Nat → Nat → String → Nat → String → DriverCall
  | joinPane : String → Nat → String → Nat → Nat → DriverCall
  | createPane : String → Nat → Nat → String → DriverCall
deriving DecidableEq

/-- The multiplexer driver as an abstract deterministic responder: each
call either fails with an I/O error or yields raw output. -/
structure Driver where
  respond : DriverCall → Except IOErr Output

/-- Outcome of an embedded operation: a returned value, a propagated I/O
error (Rust `Err`), or a process abort (Rust `panic!`, carrying the
static part of the panic message). -/
inductive PResult (α : Type) where
  | ok : α → PResult α
  | err : IOErr → PResult α
  | panic : String → PResult α
deriving DecidableEq

/-- Lift a driver result into an operation outcome. -/
def toP (r : Except IOErr Output) : PResult Output :=
  match r with
  | Except.ok o => PResult.ok o
  | Except.error e => PResult.err e

/-- The Session Context (`struct TmuxContext`). -/
structure TmuxContext where
  detached_session : String
  session : String
  window : Nat
  pane : Nat
deriving DecidableEq

/-- Result of a context operation: the context as it stands after the
call (the Rust methods take `&self`, so the embedding returns it
explicitly to make immutability statable), the ordered list of driver
calls issued, and the outcome. -/
structure OpResult (α : Type) where
  post : TmuxContext
  calls : List DriverCall
  result : PResult α
deriving DecidableEq

/-- `create_tmux_context`: query the driver for the current session,
window and pane (in that order, each `?`-propagating an I/O error before
the next query is issued), decode each stdout as UTF-8 (aborting on
invalid bytes), strip newlines, then — after all three queries — parse
window and pane as integers (aborting on parse failure).  Returns the
issued call list alongside the outcome. -/
def create_tmux_context (d : Driver) (detached_session : String) :
    List DriverCall × PResult TmuxContext :=
  match d.respond DriverCall.currentSession with
  | Except.error e => ([DriverCall.currentSession], PResult.err e)
  | Except.ok o1 =>
    match fromUtf8 o1.stdout with
    | none =>
      ([DriverCall.currentSession],
        PResult.panic "Error: Could not retrieve tmux session id")
    | some s1 =>
      let session := replaceNewline s1
      match d.respond DriverCall.currentWindow with
      | Except.error e =>
        ([DriverCall.currentSession, DriverCall.currentWindow], PResult.err e)
      | Except.ok o2 =>
        match fromUtf8 o2.stdout with
        | none =>
          ([DriverCall.currentSession, DriverCall.currentWindow],
            PResult.panic "Error: Could not retrieve tmux window id")
        | some s2 =>
          let window := replaceNewline s2
          match d.respond DriverCall.currentPane with
          | Except.error e =>
            ([DriverCall.currentSession, DriverCall.currentWindow,
              DriverCall.currentPane], PResult.err e)
          | Except.ok o3 =>
            match fromUtf8 o3.stdout with
            | none =>
              ([DriverCall.currentSession, DriverCall.currentWindow,
                DriverCall.currentPane],
                PResult.panic "Error: Could not retrieve tmux pane id")
            | some s3 =>
              let pane := replaceNewline s3
              match parseUsize window with
              | none =>
                ([DriverCall.currentSession, DriverCall.currentWindow,
                  DriverCall.currentPane],
                  PResult.panic "Error: Failed to parse tmux window")
              | some window_id =>
                match parseUsize pane with
                | none =>
                  ([DriverCall.currentSession, DriverCall.currentWindow,
                    DriverCall.currentPane],
                    PResult.panic "Error: Failed to parse tmux pane")
                | some pane_id =>
                  ([DriverCall.currentSession, DriverCall.currentWindow,
                    DriverCall.currentPane],
                    PResult.ok
                      { detached_session := detached_session,
                        session := session,
                        window := window_id,
                        pane := pane_id })

/-- `TmuxContext::prepare`: start the detached holding session, then set
remain-on-exit on the visible window; `?` stops before the second call if
the first fails. -/
def TmuxContext.prepare (self : TmuxContext) (d : Driver) : OpResult Output :=
  match d.respond (DriverCall.startDetachedSession self.detached_session) with
  | Except.error e =>
    { post := self,
      calls := [DriverCall.startDetachedSession self.detached_session],
      result := PResult.err e }
  | Except.ok _ =>
    { post := self,
      calls := [DriverCall.startDetachedSession self.detached_session,
        DriverCall.setRemainOnExit self.session self.window true],
      result := toP (d.respond
        (DriverCall.setRemainOnExit self.session self.window true)) }

/-- `TmuxContext::cleanup`: kill the detached holding session, then unset
remain-on-exit on the visible window. -/
def TmuxContext.cleanup (self : TmuxContext) (d : Driver) : OpResult Output :=
  match d.respond (DriverCall.killSession self.detached_session) with
  | Except.error e =>
    { post := self,
      calls := [DriverCall.killSession self.detached_session],
      result := PResult.err e }
  | Except.ok _ =>
    { post := self,
      calls := [DriverCall.killSession self.detached_session,
        DriverCall.setRemainOnExit self.session self.window false],
      result := toP (d.respond
        (DriverCall.setRemainOnExit self.session self.window false)) }

/-- `TmuxContext::break_pane`: break `source_pane` out of the visible
window into (`detached_session`, `dest_window`) with the given label,
then set remain-on-exit there; `?` stops before the second call if the
first fails. -/
def TmuxContext.break_pane (self : TmuxContext) (d : Driver)
    (source_pane dest_window : Nat) (window_label : String) : OpResult Output :=
  match d.respond (DriverCall.breakPane self.session self.window source_pane
      self.detached_session dest_window window_label) with
  | Except.error e =>
    { post := self,
      calls := [DriverCall.breakPane self.session self.window source_pane
        self.detached_session dest_window window_label],
      result := PResult.err e }
  | Except.ok _ =>
    { post := self,
      calls := [DriverCall.breakPane self.session self.window source_pane
        self.detached_session dest_window window_label,
        DriverCall.setRemainOnExit self.detached_session dest_window true],
      result := toP (d.respond
        (DriverCall.setRemainOnExit self.detached_session dest_window true)) }

/-- `TmuxContext::join_pane`: join the pane at (`detached_session`,
`target_window`) back into the visible window at the anchor pane, then
return the `usize` sum `self.pane + 1` without re-querying the
multiplexer.  The addition is 64-bit machine arithmetic, so it wraps
modulo `2 ^ 64` (release-build semantics; a debug build would abort at
the same input instead of returning the mathematical successor). -/
def TmuxContext.join_pane (self : TmuxContext) (d : Driver)
    (target_window : Nat) : OpResult Nat :=
  match d.respond (DriverCall.joinPane self.detached_session target_window
      self.session self.window self.pane) with
  | Except.error e =>
    { post := self,
      calls := [DriverCall.joinPane self.detached_session target_window
        self.session self.window self.pane],
      result := PResult.err e }
  | Except.ok _ =>
    { post := self,
      calls := [DriverCall.joinPane self.detached_session target_window
        self.session self.window self.pane],
      result := PResult.ok ((self.pane + 1) % 2 ^ 64) }

/-- `TmuxContext::create_pane`: split a new pane at the anchor running
`command`, decode the driver's stdout as UTF-8, strip newlines and parse
the pane id; both malformed-output branches return descriptive
`Err` values, never an abort. -/
def TmuxContext.create_pane (self : TmuxContext) (d : Driver)
    (command : String) : OpResult Nat :=
  match d.respond (DriverCall.createPane self.session self.window self.pane
      command) with
  | Except.error e =>
    { post := self,
      calls := [DriverCall.createPane self.session self.window self.pane command],
      result := PResult.err e }
  | Except.ok pane =>
    { post := self,
      calls := [DriverCall.createPane self.session self.window self.pane command],
      result :=
        match fromUtf8 pane.stdout with
        | some val =>
          match parseUsize (replaceNewline val) with
          | some i => PResult.ok i
          | none =>
            PResult.err ⟨"Error: Could not convert create_pane output to int"⟩
        | none => PResult.err ⟨"Error: Could not parse create_pane output"⟩ }

/-- State of a mock multiplexer (spec §8's "mock driver"): which sessions
exist and the per-(session, window) remain-on-exit flag; only the
session-level calls of §6 mutate it. -/
@[ext]
structure MuxState where
  sessions : String → Bool
  remain : String → Nat → Bool

/-- Semantics of one driver call on the mock multiplexer state. -/
def MuxState.apply (s : MuxState) : DriverCall → MuxState
  | DriverCall.startDetachedSession n =>
    { s with sessions := fun m => if m = n then true else s.sessions m }
  | DriverCall.killSession n =>
    { s with sessions := fun m => if m = n then false else s.sessions m }
  | DriverCall.setRemainOnExit sess w b =>
    { s with remain := fun m v => if m = sess ∧ v = w then b else s.remain m v }
  | _ => s

/-- Run a list of driver calls, in order, on the mock multiplexer state. -/
def MuxState.applyAll (s : MuxState) (cs : List DriverCall) : MuxState :=
  cs.foldl MuxState.apply s

/-- A driver on which every call succeeds, with outputs given by `f`. -/
def okDriver (f : DriverCall → Output) : Driver :=
  ⟨fun c => Except.ok (f c)⟩

/-- A driver on which every call succeeds with the same stdout bytes. -/
def constDriver (bs : List Nat) : Driver :=
  ⟨fun _ => Except.ok ⟨bs⟩⟩

/-- The driver of the spec's construction example: current session
`"main\n"`, current window `"2\n"`, current pane `"0\n"`. -/
def mainDriver : Driver :=
  ⟨fun c => match c with
    | DriverCall.currentSession => Except.ok ⟨[0x6D, 0x61, 0x69, 0x6E, 0x0A]⟩
    | DriverCall.currentWindow => Except.ok ⟨[0x32, 0x0A]⟩
    | DriverCall.currentPane => Except.ok ⟨[0x30, 0x0A]⟩
    | _ => Except.ok ⟨[]⟩⟩

/-- Driver whose pane query returns the largest 64-bit pane id,
`"18446744073709551615\n"`, itself accepted by the `usize` parse. -/
def maxPaneDriver : Driver :=
  ⟨fun c => match c with
    | DriverCall.currentSession => Except.ok ⟨[0x6D, 0x61, 0x69, 0x6E, 0x0A]⟩
    | DriverCall.currentWindow => Except.ok ⟨[0x32, 0x0A]⟩
    | DriverCall.currentPane => Except.ok ⟨[0x31, 0x38, 0x34, 0x34, 0x36,
        0x37, 0x34, 0x34, 0x30, 0x37, 0x33, 0x37, 0x30, 0x39, 0x35, 0x35,
        0x31, 0x36, 0x31, 0x35, 0x0A]⟩
    | _ => Except.ok ⟨[]⟩⟩

/-- C1 counterexample: a context with `pane = 2 ^ 64 - 1` (`usize::MAX`)
is constructible — the driver pane output `"18446744073709551615\n"`
passes the `usize` parse — yet on a succeeding join call `join_pane`
returns the wrapped machine sum `0`, not the mathematical `pane + 1`. -/
theorem join_pane_wraps_at_usize_max_cx :
    (create_tmux_context maxPaneDriver "dt").2 =
      PResult.ok ⟨"dt", "main", 2, 2 ^ 64 - 1⟩ ∧
    ((TmuxContext.mk "dt" "main" 2 (2 ^ 64 - 1)).join_pane
      (okDriver (fun _ => ⟨[]⟩)) 0).result = PResult.ok 0 ∧
    (0 : Nat) ≠ (2 ^ 64 - 1) + 1 :=
  ⟨by decide, by decide, by decide⟩

/-- C1 (amended): whenever the driver's join call succeeds, `join_pane`
returns the wrapped 64-bit sum `(pane + 1) % 2 ^ 64`, where `pane` is the
anchor pane captured at construction, independently of `target_window`;
for every context with `pane + 1 < 2 ^ 64` — every constructible context
except `pane = usize::MAX` — this equals `pane + 1`. -/
theorem join_pane_returns_pane_succ (d : Driver) (ctx : TmuxContext)
    (target_window : Nat) (o : Output)
    (h : d.respond (DriverCall.joinPane ctx.detached_session target_window
      ctx.session ctx.window ctx.pane) = Except.ok o) :
    (ctx.join_pane d target_window).result =
      PResult.ok ((ctx.pane + 1) % 2 ^ 64) ∧
    (ctx.pane + 1 < 2 ^ 64 →
      (ctx.join_pane d target_window).result = PResult.ok (ctx.pane + 1)) := by
  have h1 : (ctx.join_pane d target_window).result =
      PResult.ok ((ctx.pane + 1) % 2 ^ 64) := by
    simp [TmuxContext.join_pane, h]
  refine ⟨h1, fun hlt => ?_⟩
  rw [h1, Nat.mod_eq_of_lt hlt]

/-- C1 witness: on a context with `pane = 3` and a succeeding driver,
`join_pane 9` returns `4`. -/
theorem join_pane_returns_pane_succ_witness :
    (okDriver (fun _ => ⟨[]⟩)).respond
      (DriverCall.joinPane "dt" 9 "main" 2 3) = Except.ok ⟨[]⟩ ∧
    (3 : Nat) + 1 < 2 ^ 64 ∧
    ((TmuxContext.mk "dt" "main" 2 3).join_pane
      (okDriver (fun _ => ⟨[]⟩)) 9).result = PResult.ok 4 :=
  ⟨rfl, by decide,
   (join_pane_returns_pane_succ (okDriver (fun _ => ⟨[]⟩))
     ⟨"dt", "main", 2, 3⟩ 9 ⟨[]⟩ rfl).2 (by decide)⟩

/-- C2: when the driver's create-pane call succeeds, `create_pane` never
aborts: if the stdout decodes as UTF-8 and, after newline removal, parses
as an integer `n`, the result is `ok n`; otherwise the result is a
descriptive error value. -/
theorem create_pane_parses_or_errors (d : Driver) (ctx : TmuxContext)
    (command : String) (o : Output)
    (h : d.respond (DriverCall.createPane ctx.session ctx.window ctx.pane
      command) = Except.ok o) :
    (∀ a, (ctx.create_pane d command).result ≠ PResult.panic a) ∧
    (∀ n, (fromUtf8 o.stdout).bind (fun v => parseUsize (replaceNewline v)) =
        some n → (ctx.create_pane d command).result = PResult.ok n) ∧
    ((fromUtf8 o.stdout).bind (fun v => parseUsize (replaceNewline v)) = none →
      ∃ m, (ctx.create_pane d command).result = PResult.err ⟨m⟩) := by
  refine ⟨?_, ?_, ?_⟩
  · intro a
    simp only [TmuxContext.create_pane, h]
    cases hu : fromUtf8 o.stdout with
    | none => simp [hu]
    | some v =>
      cases hp : parseUsize (replaceNewline v) with
      | none => simp [hu, hp]
      | some i => simp [hu, hp]
  · intro n hn
    cases hu : fromUtf8 o.stdout with
    | none => simp [hu] at hn
    | some v =>
      have hn2 : parseUsize (replaceNewline v) = some n := by
        simpa [hu] using hn
      simp [TmuxContext.create_pane, h, hu, hn2]
  · intro hn
    simp only [TmuxContext.create_pane, h]
    cases hu : fromUtf8 o.stdout with
    | none => exact ⟨"Error: Could not parse create_pane output", by simp [hu]⟩
    | some v =>
      have hn2 : parseUsize (replaceNewline v) = none := by
        simpa [hu] using hn
      exact ⟨"Error: Could not convert create_pane output to int", by simp [hu, hn2]⟩

/-- C2 witness: driver output `"7\n"` yields pane id `7`; driver output
`"abc\n"` yields a descriptive error. -/
theorem create_pane_parses_or_errors_witness :
    (constDriver [0x37, 0x0A]).respond (DriverCall.createPane "main" 2 0
      "cmd") = Except.ok ⟨[0x37, 0x0A]⟩ ∧
    ((TmuxContext.mk "dt" "main" 2 0).create_pane (constDriver [0x37, 0x0A])
      "cmd").result = PResult.ok 7 ∧
    (∃ m, ((TmuxContext.mk "dt" "main" 2 0).create_pane
      (constDriver [0x61, 0x62, 0x63, 0x0A]) "cmd").result = PResult.err ⟨m⟩) :=
  ⟨rfl,
   (create_pane_parses_or_errors (constDriver [0x37, 0x0A])
     ⟨"dt", "main", 2, 0⟩ "cmd" ⟨[0x37, 0x0A]⟩ rfl).2.1 7 (by decide),
   (create_pane_parses_or_errors (constDriver [0x61, 0x62, 0x63, 0x0A])
     ⟨"dt", "main", 2, 0⟩ "cmd" ⟨[0x61, 0x62, 0x63, 0x0A]⟩ rfl).2.2 (by decide)⟩

/-- Driver where the returned window text is non-numeric and the pane
query then fails with an I/O error. -/
def winXPaneIODriver : Driver :=
  ⟨fun c => match c with
    | DriverCall.currentSession => Except.ok ⟨[0x6D, 0x61, 0x69, 0x6E, 0x0A]⟩
    | DriverCall.currentWindow => Except.ok ⟨[0x78, 0x0A]⟩
    | DriverCall.currentPane => Except.error ⟨"io: tmux unreachable"⟩
    | _ => Except.ok ⟨[]⟩⟩

/-- C3 counterexample: the driver returns window text `"x\n"`, which does
not parse as an integer — the claim demands a fatal abort with no value
returned — yet because the pane query fails with an I/O error and all
three queries are issued before window/pane parsing, construction returns
that error as a value instead of aborting. -/
theorem create_context_abort_claim_cx :
    winXPaneIODriver.respond DriverCall.currentWindow =
      Except.ok ⟨[0x78, 0x0A]⟩ ∧
    fromUtf8 [0x78, 0x0A] = some "x\n" ∧
    parseUsize (replaceNewline "x\n") = none ∧
    (create_tmux_context winXPaneIODriver "dt").2 =
      PResult.err ⟨"io: tmux unreachable"⟩ :=
  ⟨rfl, by decide, by decide, by decide⟩

/-- C3 (amended): construction decodes each query's output immediately
but parses window/pane only after all three queries; invalid UTF-8 aborts
(given every earlier step succeeded), a window/pane parse failure aborts
given all three queries succeeded and decoded, and a query's I/O failure
is returned as an error result given every earlier-decoded output was
valid UTF-8 — even if already-returned text will fail to parse. -/
theorem create_context_fatal_vs_io_error (d : Driver) (dt : String) :
    (∀ e, d.respond DriverCall.currentSession = Except.error e →
      (create_tmux_context d dt).2 = PResult.err e) ∧
    (∀ o1, d.respond DriverCall.currentSession = Except.ok o1 →
      fromUtf8 o1.stdout = none →
      (create_tmux_context d dt).2 =
        PResult.panic "Error: Could not retrieve tmux session id") ∧
    (∀ o1 s1 e, d.respond DriverCall.currentSession = Except.ok o1 →
      fromUtf8 o1.stdout = some s1 →
      d.respond DriverCall.currentWindow = Except.error e →
      (create_tmux_context d dt).2 = PResult.err e) ∧
    (∀ o1 s1 o2, d.respond DriverCall.currentSession = Except.ok o1 →
      fromUtf8 o1.stdout = some s1 →
      d.respond DriverCall.currentWindow = Except.ok o2 →
      fromUtf8 o2.stdout = none →
      (create_tmux_context d dt).2 =
        PResult.panic "Error: Could not retrieve tmux window id") ∧
    (∀ o1 s1 o2 s2 e, d.respond DriverCall.currentSession = Except.ok o1 →
      fromUtf8 o1.stdout = some s1 →
      d.respond DriverCall.currentWindow = Except.ok o2 →
      fromUtf8 o2.stdout = some s2 →
      d.respond DriverCall.currentPane = Except.error e →
      (create_tmux_context d dt).2 = PResult.err e) ∧
    (∀ o1 s1 o2 s2 o3, d.respond DriverCall.currentSession = Except.ok o1 →
      fromUtf8 o1.stdout = some s1 →
      d.respond DriverCall.currentWindow = Except.ok o2 →
      fromUtf8 o2.stdout = some s2 →
      d.respond DriverCall.currentPane = Except.ok o3 →
      fromUtf8 o3.stdout = none →
      (create_tmux_context d dt).2 =
        PResult.panic "Error: Could not retrieve tmux pane id") ∧
    (∀ o1 s1 o2 s2 o3 s3, d.respond DriverCall.currentSession = Except.ok o1 →
      fromUtf8 o1.stdout = some s1 →
      d.respond DriverCall.currentWindow = Except.ok o2 →
      fromUtf8 o2.stdout = some s2 →
      d.respond DriverCall.currentPane = Except.ok o3 →
      fromUtf8 o3.stdout = some s3 →
      parseUsize (replaceNewline s2) = none →
      (create_tmux_context d dt).2 =
        PResult.panic "Error: Failed to parse tmux window") ∧
    (∀ o1 s1 o2 s2 o3 s3 wi,
      d.respond DriverCall.currentSession = Except.ok o1 →
      fromUtf8 o1.stdout = some s1 →
      d.respond DriverCall.currentWindow = Except.ok o2 →
      fromUtf8 o2.stdout = some s2 →
      d.respond DriverCall.currentPane = Except.ok o3 →
      fromUtf8 o3.stdout = some s3 →
      parseUsize (replaceNewline s2) = some wi →
      parseUsize (replaceNewline s3) = none →
      (create_tmux_context d dt).2 =
        PResult.panic "Error: Failed to parse tmux pane") := by
  refine ⟨?_, ?_, ?_, ?_, ?_, ?_, ?_, ?_⟩
  · intro e h1
    simp [create_tmux_context, h1]
  · intro o1 h1 hu1
    simp [create_tmux_context, h1, hu1]
  · intro o1 s1 e h1 hu1 h2
    simp [create_tmux_context, h1, hu1, h2]
  · intro o1 s1 o2 h1 hu1 h2 hu2
    simp [create_tmux_context, h1, hu1, h2, hu2]
  · intro o1 s1 o2 s2 e h1 hu1 h2 hu2 h3
    simp [create_tmux_context, h1, hu1, h2, hu2, h3]
  · intro o1 s1 o2 s2 o3 h1 hu1 h2 hu2 h3 hu3
    simp [create_tmux_context, h1, hu1, h2, hu2, h3, hu3]
  · intro o1 s1 o2 s2 o3 s3 h1 hu1 h2 hu2 h3 hu3 hw
    simp [create_tmux_context, h1, hu1, h2, hu2, h3, hu3, hw]
  · intro o1 s1 o2 s2 o3 s3 wi h1 hu1 h2 hu2 h3 hu3 hw hp
    simp [create_tmux_context, h1, hu1, h2, hu2, h3, hu3, hw, hp]

/-- Driver where all three queries succeed but the window text is
non-numeric. -/
def winXDriver : Driver :=
  ⟨fun c => match c with
    | DriverCall.currentSession => Except.ok ⟨[0x6D, 0x61, 0x69, 0x6E, 0x0A]⟩
    | DriverCall.currentWindow => Except.ok ⟨[0x78, 0x0A]⟩
    | DriverCall.currentPane => Except.ok ⟨[0x30, 0x0A]⟩
    | _ => Except.ok ⟨[]⟩⟩

/-- C3 witness: with all queries succeeding and window output `"x\n"`,
construction aborts with the window parse panic; and with the session
query failing, the I/O error is returned. -/
theorem create_context_fatal_vs_io_error_witness :
    winXDriver.respond DriverCall.currentWindow = Except.ok ⟨[0x78, 0x0A]⟩ ∧
    parseUsize (replaceNewline "x\n") = none ∧
    (create_tmux_context winXDriver "dt").2 =
      PResult.panic "Error: Failed to parse tmux window" ∧
    (create_tmux_context (Driver.mk (fun _ => Except.error ⟨"down"⟩)) "dt").2 =
      PResult.err ⟨"down"⟩ :=
  ⟨rfl, by decide,
   (create_context_fatal_vs_io_error winXDriver "dt").2.2.2.2.2.2.1
     ⟨[0x6D, 0x61, 0x69, 0x6E, 0x0A]⟩ "main\n" ⟨[0x78, 0x0A]⟩ "x\n"
     ⟨[0x30, 0x0A]⟩ "0\n" rfl (by decide) rfl (by decide) rfl (by decide)
     (by decide),
   (create_context_fatal_vs_io_error (Driver.mk (fun _ => Except.error ⟨"down"⟩))
     "dt").1 ⟨"down"⟩ rfl⟩

/-- On a newline-terminated identifier whose body holds no newline,
the code's newline removal is exactly "strip the trailing newline". -/
theorem replaceNewline_no_newline_append (s : String) (h : '\n' ∉ s.data) :
    replaceNewline (s ++ "\n") = s := by
  cases s with
  | mk l =>
    have hf : l.filter (fun c => c != '\n') = l :=
      List.filter_eq_self.mpr (fun a ha => by
        simp only [bne_iff_ne, ne_eq, decide_eq_true_eq]
        intro hc
        exact h (hc ▸ ha))
    have hd : (String.mk l ++ "\n").data = l ++ ['\n'] := rfl
    simp only [replaceNewline, hd, List.filter_append, hf]
    simp

/-- C4: for every valid driver response triple — each output a
newline-terminated identifier whose body holds no further newline, with
window/pane bodies parsing as non-negative integers — the constructed
context exposes exactly the stripped driver-returned values. -/
theorem create_context_exposes_driver_values (d : Driver) (dt : String)
    (o1 o2 o3 : Output) (s w p : String) (wi pi : Nat)
    (h1 : d.respond DriverCall.currentSession = Except.ok o1)
    (hu1 : fromUtf8 o1.stdout = some (s ++ "\n"))
    (hs : '\n' ∉ s.data)
    (h2 : d.respond DriverCall.currentWindow = Except.ok o2)
    (hu2 : fromUtf8 o2.stdout = some (w ++ "\n"))
    (hw : '\n' ∉ w.data)
    (h3 : d.respond DriverCall.currentPane = Except.ok o3)
    (hu3 : fromUtf8 o3.stdout = some (p ++ "\n"))
    (hp : '\n' ∉ p.data)
    (hwi : parseUsize w = some wi)
    (hpi : parseUsize p = some pi) :
    (create_tmux_context d dt).2 = PResult.ok ⟨dt, s, wi, pi⟩ := by
  simp [create_tmux_context, h1, hu1, h2, hu2, h3, hu3,
    replaceNewline_no_newline_append s hs,
    replaceNewline_no_newline_append w hw,
    replaceNewline_no_newline_append p hp, hwi, hpi]

/-- C4 witness: driver outputs `"main\n"`, `"2\n"`, `"0\n"` yield
`session = "main"`, `window = 2`, `pane = 0`. -/
theorem create_context_exposes_driver_values_witness :
    mainDriver.respond DriverCall.currentSession =
      Except.ok ⟨[0x6D, 0x61, 0x69, 0x6E, 0x0A]⟩ ∧
    fromUtf8 [0x6D, 0x61, 0x69, 0x6E, 0x0A] = some ("main" ++ "\n") ∧
    (create_tmux_context mainDriver "dt").2 =
      PResult.ok ⟨"dt", "main", 2, 0⟩ :=
  ⟨rfl, by decide,
   create_context_exposes_driver_values mainDriver "dt"
     ⟨[0x6D, 0x61, 0x69, 0x6E, 0x0A]⟩ ⟨[0x32, 0x0A]⟩ ⟨[0x30, 0x0A]⟩
     "main" "2" "0" 2 0
     rfl (by decide) (by decide) rfl (by decide) (by decide)
     rfl (by decide) (by decide) (by decide) (by decide)⟩

/-- C5: `break_pane` issues exactly the break-pane call followed by the
set-remain-on-exit call, in that order; if the break-pane call fails the
second call is never issued and the error is propagated. -/
theorem break_pane_two_calls_ordered (d : Driver) (ctx : TmuxContext)
    (source_pane dest_window : Nat) (window_label : String) :
    (∀ e, d.respond (DriverCall.breakPane ctx.session ctx.window source_pane
        ctx.detached_session dest_window window_label) = Except.error e →
      (ctx.break_pane d source_pane dest_window window_label).calls =
        [DriverCall.breakPane ctx.session ctx.window source_pane
          ctx.detached_session dest_window window_label] ∧
      (ctx.break_pane d source_pane dest_window window_label).result =
        PResult.err e) ∧
    (∀ o, d.respond (DriverCall.breakPane ctx.session ctx.window source_pane
        ctx.detached_session dest_window window_label) = Except.ok o →
      (ctx.break_pane d source_pane dest_window window_label).calls =
        [DriverCall.breakPane ctx.session ctx.window source_pane
          ctx.detached_session dest_window window_label,
          DriverCall.setRemainOnExit ctx.detached_session dest_window true] ∧
      (ctx.break_pane d source_pane dest_window window_label).result =
        toP (d.respond (DriverCall.setRemainOnExit ctx.detached_session
          dest_window true))) := by
  constructor
  · intro e h
    simp [TmuxContext.break_pane, h]
  · intro o h
    simp [TmuxContext.break_pane, h]

/-- A driver that fails exactly on break-pane calls. -/
def breakFailDriver : Driver :=
  ⟨fun c => match c with
    | DriverCall.breakPane _ _ _ _ _ _ => Except.error ⟨"break failed"⟩
    | _ => Except.ok ⟨[]⟩⟩

/-- C5 witness: with a succeeding driver the recorded trace is the two
calls in order; with a driver failing the break-pane call, only that call
is recorded and its error is propagated. -/
theorem break_pane_two_calls_ordered_witness :
    breakFailDriver.respond (DriverCall.breakPane "main" 2 5 "dt" 1 "lbl") =
      Except.error ⟨"break failed"⟩ ∧
    ((TmuxContext.mk "dt" "main" 2 0).break_pane breakFailDriver 5 1
      "lbl").calls = [DriverCall.breakPane "main" 2 5 "dt" 1 "lbl"] ∧
    ((TmuxContext.mk "dt" "main" 2 0).break_pane breakFailDriver 5 1
      "lbl").result = PResult.err ⟨"break failed"⟩ ∧
    ((TmuxContext.mk "dt" "main" 2 0).break_pane (constDriver []) 5 1
      "lbl").calls = [DriverCall.breakPane "main" 2 5 "dt" 1 "lbl",
        DriverCall.setRemainOnExit "dt" 1 true] :=
  ⟨rfl,
   ((break_pane_two_calls_ordered breakFailDriver ⟨"dt", "main", 2, 0⟩ 5 1
     "lbl").1 ⟨"break failed"⟩ rfl).1,
   ((break_pane_two_calls_ordered breakFailDriver ⟨"dt", "main", 2, 0⟩ 5 1
     "lbl").1 ⟨"break failed"⟩ rfl).2,
   ((break_pane_two_calls_ordered (constDriver []) ⟨"dt", "main", 2, 0⟩ 5 1
     "lbl").2 ⟨[]⟩ rfl).1⟩

/-- C6: `prepare` issues the detached-session creation first and the
visible-window remain-on-exit call second; a failure of the first step
stops before the second call, and a failure of either step is propagated
to the caller with no further calls. -/
theorem prepare_two_calls_ordered (d : Driver) (ctx : TmuxContext) :
    (∀ e, d.respond (DriverCall.startDetachedSession ctx.detached_session) =
        Except.error e →
      (ctx.prepare d).calls =
        [DriverCall.startDetachedSession ctx.detached_session] ∧
      (ctx.prepare d).result = PResult.err e) ∧
    (∀ o, d.respond (DriverCall.startDetachedSession ctx.detached_session) =
        Except.ok o →
      (ctx.prepare d).calls =
        [DriverCall.startDetachedSession ctx.detached_session,
          DriverCall.setRemainOnExit ctx.session ctx.window true] ∧
      (ctx.prepare d).result = toP (d.respond
        (DriverCall.setRemainOnExit ctx.session ctx.window true))) ∧
    (∀ o e, d.respond (DriverCall.startDetachedSession ctx.detached_session) =
        Except.ok o →
      d.respond (DriverCall.setRemainOnExit ctx.session ctx.window true) =
        Except.error e →
      (ctx.prepare d).result = PResult.err e) := by
  refine ⟨?_, ?_, ?_⟩
  · intro e h
    simp [TmuxContext.prepare, h]
  · intro o h
    simp [TmuxContext.prepare, h]
  · intro o e h h2
    simp [TmuxContext.prepare, h, h2, toP]

/-- A driver that fails exactly on session-creation calls. -/
def startFailDriver : Driver :=
  ⟨fun c => match c with
    | DriverCall.startDetachedSession _ => Except.error ⟨"start failed"⟩
    | _ => Except.ok ⟨[]⟩⟩

/-- C6 witness: with a succeeding driver `prepare` records the two calls
in order; with a driver failing session creation, only the first call is
recorded and its error is propagated. -/
theorem prepare_two_calls_ordered_witness :
    startFailDriver.respond (DriverCall.startDetachedSession "dt") =
      Except.error ⟨"start failed"⟩ ∧
    ((TmuxContext.mk "dt" "main" 2 0).prepare startFailDriver).calls =
      [DriverCall.startDetachedSession "dt"] ∧
    ((TmuxContext.mk "dt" "main" 2 0).prepare startFailDriver).result =
      PResult.err ⟨"start failed"⟩ ∧
    ((TmuxContext.mk "dt" "main" 2 0).prepare (constDriver [])).calls =
      [DriverCall.startDetachedSession "dt",
        DriverCall.setRemainOnExit "main" 2 true] :=
  ⟨rfl,
   ((prepare_two_calls_ordered startFailDriver ⟨"dt", "main", 2, 0⟩).1
     ⟨"start failed"⟩ rfl).1,
   ((prepare_two_calls_ordered startFailDriver ⟨"dt", "main", 2, 0⟩).1
     ⟨"start failed"⟩ rfl).2,
   ((prepare_two_calls_ordered (constDriver []) ⟨"dt", "main", 2, 0⟩).2.1
     ⟨[]⟩ rfl).1⟩

/-- C7: against a mock driver on which every call succeeds, `cleanup`
issues exactly the kill of the detached session followed by resetting
remain-on-exit to false, and running `prepare` then `cleanup` is a round
trip on the mock multiplexer state: no residual holding session and no
residual flag remain. -/
theorem prepare_cleanup_round_trip (f : DriverCall → Output)
    (ctx : TmuxContext) (s0 : MuxState)
    (hs : s0.sessions ctx.detached_session = false)
    (hr : s0.remain ctx.session ctx.window = false) :
    (ctx.cleanup (okDriver f)).calls =
      [DriverCall.killSession ctx.detached_session,
        DriverCall.setRemainOnExit ctx.session ctx.window false] ∧
    MuxState.applyAll (MuxState.applyAll s0 (ctx.prepare (okDriver f)).calls)
      (ctx.cleanup (okDriver f)).calls = s0 := by
  have hpc : (ctx.prepare (okDriver f)).calls =
      [DriverCall.startDetachedSession ctx.detached_session,
        DriverCall.setRemainOnExit ctx.session ctx.window true] := by
    simp [TmuxContext.prepare, okDriver]
  have hcc : (ctx.cleanup (okDriver f)).calls =
      [DriverCall.killSession ctx.detached_session,
        DriverCall.setRemainOnExit ctx.session ctx.window false] := by
    simp [TmuxContext.cleanup, okDriver]
  refine ⟨hcc, ?_⟩
  rw [hpc, hcc]
  simp only [MuxState.applyAll, List.foldl, MuxState.apply]
  apply MuxState.ext
  · funext m
    by_cases hm : m = ctx.detached_session
    · simp [hm, hs]
    · simp [hm]
  · funext m v
    by_cases hmv : m = ctx.session ∧ v = ctx.window
    · obtain ⟨hm, hv⟩ := hmv
      subst hm
      subst hv
      simp [hr]
    · simp [hmv]

/-- C7 witness: on an empty mock multiplexer, `prepare` then `cleanup`
restores the exact initial state. -/
theorem prepare_cleanup_round_trip_witness :
    (MuxState.mk (fun _ => false) (fun _ _ => false)).sessions "dt" = false ∧
    MuxState.applyAll
      (MuxState.applyAll (MuxState.mk (fun _ => false) (fun _ _ => false))
        ((TmuxContext.mk "dt" "main" 2 0).prepare
          (okDriver (fun _ => ⟨[]⟩))).calls)
      ((TmuxContext.mk "dt" "main" 2 0).cleanup
        (okDriver (fun _ => ⟨[]⟩))).calls =
      MuxState.mk (fun _ => false) (fun _ _ => false) :=
  ⟨rfl,
   (prepare_cleanup_round_trip (fun _ => ⟨[]⟩) ⟨"dt", "main", 2, 0⟩
     ⟨fun _ => false, fun _ _ => false⟩ rfl rfl).2⟩

/-- C8 counterexample: constructing with the caller-supplied detached
name `"main"` against a driver reporting current session `"main"`
succeeds and yields a context with `detached_session = session`, so the
claimed invariant does not hold for every constructed context. -/
theorem detached_equals_session_cx :
    (create_tmux_context mainDriver "main").2 =
      PResult.ok ⟨"main", "main", 2, 0⟩ ∧
    (TmuxContext.mk "main" "main" 2 0).detached_session =
      (TmuxContext.mk "main" "main" 2 0).session :=
  ⟨by decide, rfl⟩

/-- C8 (amended): construction stores the caller-supplied detached name
verbatim and does not enforce the inequality, so
`detached_session ≠ session` holds exactly when the supplied name differs
from the (stripped) driver-reported session. -/
theorem detached_session_preserved (d : Driver) (dt : String)
    (tr : List DriverCall) (c : TmuxContext)
    (h : create_tmux_context d dt = (tr, PResult.ok c)) :
    c.detached_session = dt ∧
    (dt ≠ c.session → c.detached_session ≠ c.session) := by
  have hd : c.detached_session = dt := by
    cases h1 : d.respond DriverCall.currentSession with
    | error e => simp [create_tmux_context, h1] at h
    | ok o1 =>
      cases hu1 : fromUtf8 o1.stdout with
      | none => simp [create_tmux_context, h1, hu1] at h
      | some s1 =>
        cases h2 : d.respond DriverCall.currentWindow with
        | error e => simp [create_tmux_context, h1, hu1, h2] at h
        | ok o2 =>
          cases hu2 : fromUtf8 o2.stdout with
          | none => simp [create_tmux_context, h1, hu1, h2, hu2] at h
          | some s2 =>
            cases h3 : d.respond DriverCall.currentPane with
            | error e => simp [create_tmux_context, h1, hu1, h2, hu2, h3] at h
            | ok o3 =>
              cases hu3 : fromUtf8 o3.stdout with
              | none => simp [create_tmux_context, h1, hu1, h2, hu2, h3, hu3] at h
              | some s3 =>
                cases hw : parseUsize (replaceNewline s2) with
                | none =>
                  simp [create_tmux_context, h1, hu1, h2, hu2, h3, hu3, hw] at h
                | some wi =>
                  cases hp : parseUsize (replaceNewline s3) with
                  | none =>
                    simp [create_tmux_context, h1, hu1, h2, hu2, h3, hu3,
                      hw, hp] at h
                  | some pi =>
                    simp [create_tmux_context, h1, hu1, h2, hu2, h3, hu3,
                      hw, hp] at h
                    rw [← h.2]
  refine ⟨hd, fun hne => ?_⟩
  rw [hd]
  exact hne

/-- C8 witness: with supplied name `"dt"` and reported session `"main"`,
the invariant holds. -/
theorem detached_session_preserved_witness :
    create_tmux_context mainDriver "dt" =
      ([DriverCall.currentSession, DriverCall.currentWindow,
        DriverCall.currentPane], PResult.ok ⟨"dt", "main", 2, 0⟩) ∧
    (TmuxContext.mk "dt" "main" 2 0).detached_session = "dt" ∧
    ("dt" ≠ (TmuxContext.mk "dt" "main" 2 0).session →
      (TmuxContext.mk "dt" "main" 2 0).detached_session ≠
        (TmuxContext.mk "dt" "main" 2 0).session) :=
  ⟨by decide,
   detached_session_preserved mainDriver "dt"
     [DriverCall.currentSession, DriverCall.currentWindow,
       DriverCall.currentPane] ⟨"dt", "main", 2, 0⟩ (by decide)⟩

/-- C9: every operation leaves the context's four identifier fields
unchanged, whether the underlying driver calls succeed or fail. -/
theorem context_fields_immutable (d : Driver) (ctx : TmuxContext)
    (source_pane dest_window target_window : Nat)
    (window_label command : String) :
    (ctx.prepare d).post = ctx ∧
    (ctx.cleanup d).post = ctx ∧
    (ctx.break_pane d source_pane dest_window window_label).post = ctx ∧
    (ctx.join_pane d target_window).post = ctx ∧
    (ctx.create_pane d command).post = ctx := by
  refine ⟨?_, ?_, ?_, ?_, ?_⟩
  · unfold TmuxContext.prepare
    split <;> rfl
  · unfold TmuxContext.cleanup
    split <;> rfl
  · unfold TmuxContext.break_pane
    split <;> rfl
  · unfold TmuxContext.join_pane
    split <;> rfl
  · unfold TmuxContext.create_pane
    split <;> rfl

/-- Driver whose three construction queries return `"main\n"`, the
multi-line `"1\n2\n"`, and `"0\n"`. -/
def multiLineDriver : Driver :=
  ⟨fun c => match c with
    | DriverCall.currentSession => Except.ok ⟨[0x6D, 0x61, 0x69, 0x6E, 0x0A]⟩
    | DriverCall.currentWindow => Except.ok ⟨[0x31, 0x0A, 0x32, 0x0A]⟩
    | DriverCall.currentPane => Except.ok ⟨[0x30, 0x0A]⟩
    | _ => Except.ok ⟨[]⟩⟩

/-- C10: newline removal is global, not just trailing: driver output
`"1\n2\n"` parses as `12`, both in `create_pane` and in the window field
of context construction. -/
theorem newlines_all_removed (d d2 : Driver) (ctx : TmuxContext)
    (command : String) (o : Output)
    (h : d.respond (DriverCall.createPane ctx.session ctx.window ctx.pane
      command) = Except.ok o)
    (hs : fromUtf8 o.stdout = some "1\n2\n")
    (dt : String) (o1 o2 o3 : Output) (s1 s3 : String) (pi : Nat)
    (h1 : d2.respond DriverCall.currentSession = Except.ok o1)
    (hu1 : fromUtf8 o1.stdout = some s1)
    (h2 : d2.respond DriverCall.currentWindow = Except.ok o2)
    (hu2 : fromUtf8 o2.stdout = some "1\n2\n")
    (h3 : d2.respond DriverCall.currentPane = Except.ok o3)
    (hu3 : fromUtf8 o3.stdout = some s3)
    (hpi : parseUsize (replaceNewline s3) = some pi) :
    (ctx.create_pane d command).result = PResult.ok 12 ∧
    (create_tmux_context d2 dt).2 =
      PResult.ok ⟨dt, replaceNewline s1, 12, pi⟩ := by
  have h12 : parseUsize (replaceNewline "1\n2\n") = some 12 := by decide
  constructor
  · simp [TmuxContext.create_pane, h, hs, h12]
  · simp [create_tmux_context, h1, hu1, h2, hu2, h3, hu3, hpi, h12]

/-- C10 witness: `create_pane` on stdout bytes `"1\n2\n"` returns `12`,
and construction with window output `"1\n2\n"` yields `window = 12`. -/
theorem newlines_all_removed_witness :
    fromUtf8 [0x31, 0x0A, 0x32, 0x0A] = some "1\n2\n" ∧
    ((TmuxContext.mk "dt" "main" 2 0).create_pane
      (constDriver [0x31, 0x0A, 0x32, 0x0A]) "cmd").result = PResult.ok 12 ∧
    (create_tmux_context multiLineDriver "dt").2 =
      PResult.ok ⟨"dt", replaceNewline "main\n", 12, 0⟩ :=
  ⟨by decide,
   newlines_all_removed (constDriver [0x31, 0x0A, 0x32, 0x0A]) multiLineDriver
     ⟨"dt", "main", 2, 0⟩ "cmd" ⟨[0x31, 0x0A, 0x32, 0x0A]⟩ rfl (by decide)
     "dt" ⟨[0x6D, 0x61, 0x69, 0x6E, 0x0A]⟩ ⟨[0x31, 0x0A, 0x32, 0x0A]⟩
     ⟨[0x30, 0x0A]⟩ "main\n" "0\n" 0
     rfl (by decide) rfl (by decide) rfl (by decide) (by decide)⟩
